import Mathlib

/-!
# CHAVI water-allocation LP model — verification of its specification

A shallow embedding of `build_and_solve` from `chavi_pulp_model.py`:
the static data tables, the unit conversion to hm3/month, the arc
topology, the decision variables, the constraint system, the objective,
the result-extraction totals, and the solver-selection logic.  Python
floats are modelled as exact rationals; a PuLP affine expression is a
list of (coefficient, variable) terms; a PuLP constraint is such an
expression together with a relation (equality or ≤) and a right-hand
side.  Dictionaries keyed by strings become functions on `String`.
-/

namespace Chavi

/-! ## Base data (lines 49–121 of the source) -/

/-- `months` list (source line 49). -/
def months : List String :=
  ["Ene", "Feb", "Mar", "Abr", "May", "Jun", "Jul", "Ago", "Sep", "Oct", "Nov", "Dic"]

/-- `days` list (source line 50): non-leap-year day counts. -/
def days : List ℚ := [31, 28, 31, 30, 31, 30, 31, 31, 30, 31, 30, 31]

/-- `secs` dictionary (source line 51): seconds in each month,
`d*24*3600` for the month's day count. -/
def secs (m : String) : ℚ := (((months.zip days).lookup m).getD 0) * 24 * 3600

/-- `sources` list (source lines 53–56). -/
def sources : List String :=
  ["Santa", "Huamanzaña", "Chorobal", "Viru_Rio",
   "Dren_Chao", "Dren_Viru", "Pozos_Chao", "Pozos_Viru"]

/-- `demands` list (source lines 58–60). -/
def demands : List String :=
  ["Chao", "Viru", "S1", "S2", "S3", "S4", "PTAP_Trujillo", "PTAP_Chao", "Industria", "Pecuario"]

/-- `offer_m3s` dictionary (source lines 62–71): monthly flow-rate series
per source. -/
def offer_m3s : String → List ℚ
  | "Santa" => [17.59, 18.41, 17.29, 16.54, 16.36, 14.90, 11.72, 11.90, 11.55, 14.72, 18.06, 19.02]
  | "Huamanzaña" => List.replicate 12 0.00
  | "Chorobal" => [0.00, 0.00, 0.00, 0.01, 0.00, 0.00, 0.00, 0.00, 0.00, 0.00, 0.00, 0.00]
  | "Viru_Rio" => [0.21, 1.15, 2.01, 1.89, 0.57, 0.07, 0.03, 0.00, 0.00, 0.00, 0.00, 0.00]
  | "Dren_Chao" => [0.53, 0.66, 0.50, 0.51, 0.52, 0.49, 0.49, 0.67, 0.94, 1.04, 1.04, 0.83]
  | "Dren_Viru" => [0.61, 0.70, 0.63, 0.69, 0.62, 0.62, 0.57, 0.59, 0.59, 0.53, 0.65, 0.65]
  | "Pozos_Chao" => [0.00, 0.00, 0.00, 0.00, 0.00, 0.00, 0.19, 0.22, 0.27, 0.24, 0.00, 0.00]
  | "Pozos_Viru" => [0.00, 0.00, 0.00, 0.00, 0.00, 0.15, 0.19, 0.22, 0.25, 0.23, 0.25, 0.19]
  | _ => []

/-- `demand_m3s` dictionary (source lines 73–84): monthly requirement
series per demand. -/
def demand_m3s : String → List ℚ
  | "Chao" => [1.98, 1.82, 1.92, 1.88, 1.85, 1.79, 1.74, 2.72, 3.77, 4.16, 3.80, 3.14]
  | "Viru" => [2.35, 2.76, 2.78, 2.99, 3.18, 3.15, 2.78, 2.93, 2.66, 2.77, 2.64, 3.22]
  | "S1" => [4.60, 4.73, 4.49, 4.45, 3.98, 3.70, 2.88, 2.89, 2.99, 3.45, 4.31, 4.47]
  | "S2" => [0.92, 0.94, 0.90, 0.89, 0.79, 0.74, 0.57, 0.58, 0.60, 0.69, 0.86, 0.89]
  | "S3" => [2.83, 2.91, 2.77, 2.74, 2.45, 2.27, 1.77, 1.78, 1.84, 2.12, 2.65, 2.75]
  | "S4" => [3.18, 3.27, 3.11, 3.08, 2.75, 2.56, 1.99, 2.00, 2.07, 2.39, 2.98, 3.09]
  | "PTAP_Trujillo" => [1.22, 1.14, 1.21, 1.11, 1.17, 1.18, 1.00, 1.11, 1.20, 1.23, 1.19, 1.21]
  | "PTAP_Chao" => [0.04, 0.04, 0.03, 0.04, 0.04, 0.04, 0.04, 0.03, 0.04, 0.04, 0.04, 0.04]
  | "Industria" => List.replicate 12 0.50
  | "Pecuario" => List.replicate 12 0.60
  | _ => []

/-- `cost_offer_USD_m3` dictionary (source lines 86–95). -/
def cost_offer_USD_m3 : String → ℚ
  | "Santa" => 0.024820
  | "Huamanzaña" => 0.0017953
  | "Chorobal" => 0.0017953
  | "Viru_Rio" => 0.0018038
  | "Dren_Chao" => 0.0017953
  | "Dren_Viru" => 0.0018038
  | "Pozos_Chao" => 0.0615100
  | "Pozos_Viru" => 0.0615100
  | _ => 0

/-- `value_dem_USD_m3` dictionary (source lines 97–108). -/
def value_dem_USD_m3 : String → ℚ
  | "Chao" => 0.0017953
  | "Viru" => 0.0018038
  | "S1" => 0.024820
  | "S2" => 0.024820
  | "S3" => 0.024820
  | "S4" => 0.024820
  | "PTAP_Trujillo" => 0.028915
  | "PTAP_Chao" => 0.028915
  | "Industria" => 0.024820
  | "Pecuario" => 0.024820
  | _ => 0

/-- The `"S1"` entry of the `efficiencies` dictionary (source lines 111–115). -/
def effS1 : String → ℚ
  | "Chao" => 0.30
  | "Viru" => 0.30
  | "S1" => 0.89
  | "S2" => 0.89
  | "S3" => 0.89
  | "S4" => 0.89
  | "PTAP_Trujillo" => 1.0
  | "PTAP_Chao" => 1.0
  | "Industria" => 1.0
  | "Pecuario" => 1.0
  | _ => 0

/-- The `"S2"` entry of the `efficiencies` dictionary (source lines 116–120). -/
def effS2 : String → ℚ
  | "Chao" => 0.60
  | "Viru" => 0.60
  | "S1" => 0.95
  | "S2" => 0.95
  | "S3" => 0.95
  | "S4" => 0.95
  | "PTAP_Trujillo" => 1.0
  | "PTAP_Chao" => 1.0
  | "Industria" => 1.0
  | "Pecuario" => 1.0
  | _ => 0

/-- The `efficiencies` dictionary lookup `efficiencies[scenario]`
(source lines 110–121 and 167): `none` models the `KeyError` raised by a
key outside `{"S1", "S2"}`. -/
def efficiencies (s : String) : Option (String → ℚ) :=
  if s = "S1" then some effS1 else if s = "S2" then some effS2 else none

/-! ## Run-level parameters (the keyword arguments of `build_and_solve`,
source lines 33–44, with their default values in `defaultParams`) -/

structure Params where
  scenario : String
  mult_pozos_chao : ℚ
  mult_pozos_viru : ℚ
  penalty_usd_hm3 : ℚ
  weight_ptap : ℚ
  weight_ind_pec : ℚ
  weight_agro : ℚ
  cap_santa_m3s : ℚ

/-- The default keyword-argument values of `build_and_solve`
(source lines 34–41). -/
def defaultParams : Params :=
  { scenario := "S1", mult_pozos_chao := 1.0, mult_pozos_viru := 1.0,
    penalty_usd_hm3 := 100000000, weight_ptap := 100.0, weight_ind_pec := 50.0,
    weight_agro := 1.0, cap_santa_m3s := 88.0 }

/-! ## Topology (source lines 123–133) -/

/-- The first local-source group, connected only to `"Chao"`
(source line 128). -/
def local_chao_sources : List String := ["Huamanzaña", "Chorobal", "Dren_Chao", "Pozos_Chao"]

/-- The second local-source group, connected only to `"Viru"`
(source line 131). -/
def local_viru_sources : List String := ["Viru_Rio", "Dren_Viru", "Pozos_Viru"]

/-- `allowed_arcs` (source lines 124–133): Santa to every demand, each
local group to its designated demand, for every month. -/
def allowed_arcs : List (String × String × String) :=
  (demands.flatMap fun j => months.map fun m => ("Santa", j, m))
    ++ (local_chao_sources.flatMap fun i => months.map fun m => (i, "Chao", m))
    ++ (local_viru_sources.flatMap fun i => months.map fun m => (i, "Viru", m))

/-! ## Unit conversion to hm3/month (source lines 136–147) -/

/-- The flow rate `offer_m3s[i][mi]` of source `i` in month `m`. -/
def offerFlow (i m : String) : ℚ := ((months.zip (offer_m3s i)).lookup m).getD 0

/-- The flow rate `demand_m3s[j][mi]` of demand `j` in month `m`. -/
def demandFlow (j m : String) : ℚ := ((months.zip (demand_m3s j)).lookup m).getD 0

/-- `Qhat` (source line 136): converted monthly supply volume. -/
def Qhat (i m : String) : ℚ := offerFlow i m * secs m / 1000000

/-- `Qhat_adjusted` (source lines 137–141): the two well multipliers
scale only their own source. -/
def Qhat_adjusted (p : Params) (i m : String) : ℚ :=
  if i = "Pozos_Chao" then Qhat i m * p.mult_pozos_chao
  else if i = "Pozos_Viru" then Qhat i m * p.mult_pozos_viru
  else Qhat i m

/-- `Dhat` (source line 143): converted monthly demand volume. -/
def Dhat (j m : String) : ℚ := demandFlow j m * secs m / 1000000

/-- `CapSanta` (source line 144): converted monthly canal capacity. -/
def CapSanta (p : Params) (m : String) : ℚ := p.cap_santa_m3s * secs m / 1000000

/-- `cost_offer_USD_hm3` (source line 146). -/
def cost_offer_USD_hm3 (i : String) : ℚ := cost_offer_USD_m3 i * 1000000

/-- `value_dem_USD_hm3` (source line 147). -/
def value_dem_USD_hm3 (j : String) : ℚ := value_dem_USD_m3 j * 1000000

/-- `weight_dem` (source lines 149–156): the three-level sector-weight
table. -/
def weight_dem (p : Params) (j : String) : ℚ :=
  if j ∈ (["PTAP_Trujillo", "PTAP_Chao"] : List String) then p.weight_ptap
  else if j ∈ (["Industria", "Pecuario"] : List String) then p.weight_ind_pec
  else p.weight_agro

/-! ## LP variables, affine expressions, constraints -/

/-- A decision variable of the model: `x__i__j__m` or `u__j__m`
(source lines 164–165). -/
inductive Var : Type
  | x (i j m : String)
  | u (j m : String)
deriving DecidableEq

/-- One term of a PuLP affine expression: a coefficient times a variable. -/
structure LinTerm : Type where
  coeff : ℚ
  var : Var

/-- The relation of a PuLP constraint. -/
inductive Rel : Type
  | eq
  | le
deriving DecidableEq

/-- A PuLP constraint: named affine expression, relation, right-hand side. -/
structure Constraint : Type where
  name : String
  lhs : List LinTerm
  rel : Rel
  rhs : ℚ

/-- Value of an affine expression under an assignment of variable values. -/
def evalLin (sol : Var → ℚ) : List LinTerm → ℚ
  | [] => 0
  | t :: ts => t.coeff * sol t.var + evalLin sol ts

/-- A relation holding between two rationals. -/
def relHolds : Rel → ℚ → ℚ → Prop
  | Rel.eq, a, b => a = b
  | Rel.le, a, b => a ≤ b

/-- An assignment satisfies a constraint. -/
def satisfies (sol : Var → ℚ) (c : Constraint) : Prop :=
  relHolds c.rel (evalLin sol c.lhs) c.rhs

/-- The allocation variables of the model: the keys of the `x` dictionary
(source line 164) — one variable per allowed arc. -/
def modelXVars : List Var := allowed_arcs.map fun t => Var.x t.1 t.2.1 t.2.2

/-- The (demand, month) pairs, in the order of the double loops
`for j in demands for m in months`. -/
def dm_pairs : List (String × String) :=
  demands.flatMap fun j => months.map fun m => (j, m)

/-- The deficit variables of the model: the keys of the `u` dictionary
(source line 165). -/
def modelUVars : List Var := dm_pairs.map fun q => Var.u q.1 q.2

/-! ## The constraint system (source lines 169–187) -/

/-- The demand-balance constraint `Balance_Dem_j_m` (source line 173):
`lpSum(x[(i,j,m)] for i in sources if (i,j,m) in x) * ej + u[(j,m)] == Dhat[(j,m)]`. -/
def balanceConstraint (eff : String → ℚ) (j m : String) : Constraint :=
  { name := "Balance_Dem_" ++ j ++ "_" ++ m
    lhs := ((sources.filter fun i => decide ((i, j, m) ∈ allowed_arcs)).map fun i =>
            LinTerm.mk (eff j) (Var.x i j m)) ++ [LinTerm.mk 1 (Var.u j m)]
    rel := Rel.eq
    rhs := Dhat j m }

/-- The per-source supply constraint `Oferta_i_m` (source line 178):
`lpSum(x[(i,j,m)] for j in demands if (i,j,m) in x) <= Qhat_adjusted(i,m)`. -/
def supplyConstraint (p : Params) (i m : String) : Constraint :=
  { name := "Oferta_" ++ i ++ "_" ++ m
    lhs := (demands.filter fun j => decide ((i, j, m) ∈ allowed_arcs)).map fun j =>
            LinTerm.mk 1 (Var.x i j m)
    rel := Rel.le
    rhs := Qhat_adjusted p i m }

/-- The canal-capacity constraint `Cap_Santa_m` (source line 182):
`lpSum(x[("Santa",j,m)] for j in demands if ("Santa",j,m) in x) <= CapSanta[m]`. -/
def capConstraint (p : Params) (m : String) : Constraint :=
  { name := "Cap_Santa_" ++ m
    lhs := (demands.filter fun j => decide (("Santa", j, m) ∈ allowed_arcs)).map fun j =>
            LinTerm.mk 1 (Var.x "Santa" j m)
    rel := Rel.le
    rhs := CapSanta p m }

/-- The demands whose deficit is forced to zero (source line 185). -/
def priority_demands : List String := ["PTAP_Trujillo", "PTAP_Chao", "Industria", "Pecuario"]

/-- The hard zero-deficit constraint `DeficitCero_j_m` (source line 187):
`u[(j,m)] == 0`. -/
def zeroDeficitConstraint (j m : String) : Constraint :=
  { name := "DeficitCero_" ++ j ++ "_" ++ m
    lhs := [LinTerm.mk 1 (Var.u j m)]
    rel := Rel.eq
    rhs := 0 }

/-- The balance constraints, in loop order (source lines 170–173). -/
def balanceConstraints (eff : String → ℚ) : List Constraint :=
  demands.flatMap fun j => months.map fun m => balanceConstraint eff j m

/-- The supply constraints, in loop order (source lines 176–178). -/
def supplyConstraints (p : Params) : List Constraint :=
  sources.flatMap fun i => months.map fun m => supplyConstraint p i m

/-- The canal-capacity constraints, in loop order (source lines 181–182). -/
def capConstraints (p : Params) : List Constraint :=
  months.map fun m => capConstraint p m

/-- The zero-deficit constraints, in loop order (source lines 185–187). -/
def zeroDeficitConstraints : List Constraint :=
  priority_demands.flatMap fun j => months.map fun m => zeroDeficitConstraint j m

/-- Every constraint the model receives, in the order `build_and_solve`
adds them (source lines 169–187). -/
def buildConstraints (p : Params) (eff : String → ℚ) : List Constraint :=
  balanceConstraints eff ++ supplyConstraints p ++ capConstraints p ++ zeroDeficitConstraints

/-! ## The objective (source lines 189–192) -/

/-- The objective `benefit_term - penalty_term` as one affine expression:
for every allowed arc the coefficient
`eff[j]*value_dem_USD_hm3[j] - cost_offer_USD_hm3[i]` on `x[(i,j,m)]`
(source line 190), and for every (demand, month) the coefficient
`-(penalty_usd_hm3 * weight_dem[j])` on `u[(j,m)]` (source lines 191–192). -/
def objective (p : Params) (eff : String → ℚ) : List LinTerm :=
  (allowed_arcs.map fun t =>
    LinTerm.mk (eff t.2.1 * value_dem_USD_hm3 t.2.1 - cost_offer_USD_hm3 t.1)
      (Var.x t.1 t.2.1 t.2.2))
    ++ (dm_pairs.map fun q =>
        LinTerm.mk (-(p.penalty_usd_hm3 * weight_dem p q.1)) (Var.u q.1 q.2))

/-! ## Feasibility -/

/-- An assignment is feasible for the built model: all variables respect
their lower bound 0 (`lowBound=0`, source lines 164–165) and every
constraint holds. -/
def feasible (p : Params) (eff : String → ℚ) (sol : Var → ℚ) : Prop :=
  (∀ v ∈ modelXVars, 0 ≤ sol v) ∧ (∀ v ∈ modelUVars, 0 ≤ sol v) ∧
    ∀ c ∈ buildConstraints p eff, satisfies sol c

/-! ## Result extraction (source lines 215–221) -/

/-- `var.value() or 0.0`: an absent solved value counts as exactly 0. -/
def getVal (sol : Var → Option ℚ) (v : Var) : ℚ := (sol v).getD 0

/-- `benefit_total` recomputed by the extractor (source lines 216–219):
`eff[j]*value_dem_USD_hm3[j]*val` summed over the `x` dictionary. -/
def benefit_total (eff : String → ℚ) (val : Var → ℚ) : ℚ :=
  (allowed_arcs.map fun t =>
    eff t.2.1 * value_dem_USD_hm3 t.2.1 * val (Var.x t.1 t.2.1 t.2.2)).sum

/-- `cost_total` recomputed by the extractor (source lines 216–220):
`cost_offer_USD_hm3[i]*val` summed over the `x` dictionary. -/
def cost_total (val : Var → ℚ) : ℚ :=
  (allowed_arcs.map fun t => cost_offer_USD_hm3 t.1 * val (Var.x t.1 t.2.1 t.2.2)).sum

/-- `penalty_total` recomputed by the extractor (source line 221):
`penalty_usd_hm3 * weight_dem[j] * (u[(j,m)].value() or 0.0)` summed over
all (demand, month) pairs. -/
def penalty_total (p : Params) (val : Var → ℚ) : ℚ :=
  (dm_pairs.map fun q => p.penalty_usd_hm3 * weight_dem p q.1 * val (Var.u q.1 q.2)).sum

/-! ## Construction order and the scenario lookup (source lines 158–167) -/

/-- What exists at the moment `efficiencies[scenario]` raises `KeyError`:
the `LpProblem` (source line 161) and the complete `x` and `u` variable
dictionaries (source lines 164–165) are already created, and no
constraint has been added yet. -/
structure PartialModel : Type where
  probCreated : Bool
  xVarsCreated : List Var
  uVarsCreated : List Var
  constraintsAdded : List Constraint

/-- A fully built model: its constraints and its objective. -/
structure ModelData : Type where
  constraintsList : List Constraint
  objectiveTerms : List LinTerm

/-- The state at the `KeyError` raised by an unrecognized scenario:
problem created, all variables created, no constraints. -/
def abortState : PartialModel :=
  { probCreated := true, xVarsCreated := modelXVars, uVarsCreated := modelUVars,
    constraintsAdded := [] }

/-- The model-construction phase of `build_and_solve` in source order:
`LpProblem` (line 161), the `x` and `u` variables (lines 164–165), then
the lookup `eff = efficiencies[scenario]` (line 167) — which, for a
scenario outside `{"S1", "S2"}`, raises `KeyError` with the problem and
the variables already created and no constraint added — then the
constraints (lines 169–187) and the objective (lines 189–192). -/
def build_model (p : Params) : Except PartialModel ModelData :=
  match efficiencies p.scenario with
  | none => Except.error abortState
  | some eff =>
      Except.ok { constraintsList := buildConstraints p eff,
                  objectiveTerms := objective p eff }

/-! ## Solver selection (source lines 194–210) -/

/-- A solver backend the code can construct (source lines 198–203). -/
inductive SolverBackend : Type
  | cbc
  | glpk
deriving DecidableEq

/-- What `prob.solve` is finally called with: a constructed backend, or
PuLP's default solver when construction raised (source lines 204–210). -/
inductive SolverUsed : Type
  | backend (b : SolverBackend)
  | pulpDefault
deriving DecidableEq

/-- Python's `str.lower()` (ASCII data here): lowercase every character. -/
def lowerStr (s : String) : String := String.mk (s.data.map Char.toLower)

/-- The backend chosen from the requested name (source lines 196–203):
`(solver_name or "cbc").lower()`, CBC for `cbc`/`pulp_cbc_cmd`, GLPK for
`glpk`/`glpk_cmd`, and CBC again for anything else. -/
def pick_solver (solver_name : Option String) : SolverBackend :=
  let s := lowerStr (solver_name.getD "cbc")
  if s ∈ (["cbc", "pulp_cbc_cmd"] : List String) then SolverBackend.cbc
  else if s ∈ (["glpk", "glpk_cmd"] : List String) then SolverBackend.glpk
  else SolverBackend.cbc

/-- The solver finally used (source lines 197–210): if constructing the
chosen backend raises any exception, `solver` stays `None` and
`prob.solve()` runs with PuLP's default solver. -/
def choose_solver (solver_name : Option String) (constructionFails : SolverBackend → Bool) :
    SolverUsed :=
  let b := pick_solver solver_name
  if constructionFails b then SolverUsed.pulpDefault else SolverUsed.backend b

end Chavi

/-! ## Helper lemmas about affine expressions and list sums -/

namespace Chavi

lemma evalLin_append (sol : Var → ℚ) (a b : List LinTerm) :
    evalLin sol (a ++ b) = evalLin sol a + evalLin sol b := by
  induction a with
  | nil => simp [evalLin]
  | cons t ts ih => simp [evalLin, ih]; ring

lemma evalLin_terms {α : Type} (sol : Var → ℚ) (l : List α) (c : α → ℚ) (v : α → Var) :
    evalLin sol (l.map fun a => LinTerm.mk (c a) (v a))
      = (l.map fun a => c a * sol (v a)).sum := by
  induction l with
  | nil => rfl
  | cons a t ih => simp [evalLin, ih]

lemma sum_map_mul_left {α : Type} (l : List α) (c : ℚ) (f : α → ℚ) :
    (l.map fun a => c * f a).sum = c * (l.map f).sum := by
  induction l with
  | nil => simp
  | cons a t ih => simp [ih]; ring

lemma sum_map_neg {α : Type} (l : List α) (f : α → ℚ) :
    (l.map fun a => -(f a)).sum = -((l.map f).sum) := by
  induction l with
  | nil => simp
  | cons a t ih => simp [ih]; ring

lemma sum_map_sub {α : Type} (l : List α) (f g : α → ℚ) :
    (l.map fun a => f a - g a).sum = (l.map f).sum - (l.map g).sum := by
  induction l with
  | nil => simp
  | cons a t ih => simp [ih]; ring

lemma satisfies_of_eq (sol : Var → ℚ) (c : Constraint) (h : c.rel = Rel.eq) :
    satisfies sol c ↔ evalLin sol c.lhs = c.rhs := by
  unfold satisfies; rw [h]; exact Iff.rfl

lemma satisfies_of_le (sol : Var → ℚ) (c : Constraint) (h : c.rel = Rel.le) :
    satisfies sol c ↔ evalLin sol c.lhs ≤ c.rhs := by
  unfold satisfies; rw [h]; exact Iff.rfl

/-! ## Sums of allocation variables appearing in the constraints -/

/-- The sum `Σ_i x(i,j,m)` over the sources with a valid arc into `(j,m)`. -/
def sumAllocated (sol : Var → ℚ) (j m : String) : ℚ :=
  ((sources.filter fun i => decide ((i, j, m) ∈ allowed_arcs)).map fun i =>
    sol (Var.x i j m)).sum

/-- The sum `Σ_j x(i,j,m)` over the demands with a valid arc out of `(i,m)`. -/
def sumSupplied (sol : Var → ℚ) (i m : String) : ℚ :=
  ((demands.filter fun j => decide ((i, j, m) ∈ allowed_arcs)).map fun j =>
    sol (Var.x i j m)).sum

lemma evalLin_balance (sol : Var → ℚ) (eff : String → ℚ) (j m : String) :
    evalLin sol (balanceConstraint eff j m).lhs
      = eff j * sumAllocated sol j m + sol (Var.u j m) := by
  unfold balanceConstraint sumAllocated
  rw [evalLin_append, evalLin_terms]
  simp [evalLin, sum_map_mul_left]

lemma evalLin_supply (sol : Var → ℚ) (p : Params) (i m : String) :
    evalLin sol (supplyConstraint p i m).lhs = sumSupplied sol i m := by
  unfold supplyConstraint sumSupplied
  rw [evalLin_terms]
  simp

lemma evalLin_cap (sol : Var → ℚ) (p : Params) (m : String) :
    evalLin sol (capConstraint p m).lhs = sumSupplied sol "Santa" m := by
  unfold capConstraint sumSupplied
  rw [evalLin_terms]
  simp

lemma evalLin_zeroDef (sol : Var → ℚ) (j m : String) :
    evalLin sol (zeroDeficitConstraint j m).lhs = sol (Var.u j m) := by
  simp [zeroDeficitConstraint, evalLin]

/-! ## Membership of each constraint family in the built model -/

lemma mem_build_balance (p : Params) (eff : String → ℚ) {j m : String}
    (hj : j ∈ demands) (hm : m ∈ months) :
    balanceConstraint eff j m ∈ buildConstraints p eff := by
  unfold buildConstraints
  simp only [List.mem_append]
  exact Or.inl (Or.inl (Or.inl
    (List.mem_flatMap.mpr ⟨j, hj, List.mem_map_of_mem _ hm⟩)))

lemma mem_build_supply (p : Params) (eff : String → ℚ) {i m : String}
    (hi : i ∈ sources) (hm : m ∈ months) :
    supplyConstraint p i m ∈ buildConstraints p eff := by
  unfold buildConstraints
  simp only [List.mem_append]
  exact Or.inl (Or.inl (Or.inr
    (List.mem_flatMap.mpr ⟨i, hi, List.mem_map_of_mem _ hm⟩)))

lemma mem_build_cap (p : Params) (eff : String → ℚ) {m : String} (hm : m ∈ months) :
    capConstraint p m ∈ buildConstraints p eff := by
  unfold buildConstraints
  simp only [List.mem_append]
  exact Or.inl (Or.inr (List.mem_map_of_mem _ hm))

lemma mem_build_zeroDef (p : Params) (eff : String → ℚ) {j m : String}
    (hj : j ∈ priority_demands) (hm : m ∈ months) :
    zeroDeficitConstraint j m ∈ buildConstraints p eff := by
  unfold buildConstraints
  simp only [List.mem_append]
  exact Or.inr (List.mem_flatMap.mpr ⟨j, hj, List.mem_map_of_mem _ hm⟩)

/-- Evaluation of the objective expression: the benefit part minus the
weighted penalty part. -/
lemma objective_eval (p : Params) (eff : String → ℚ) (sol : Var → ℚ) :
    evalLin sol (objective p eff)
      = (allowed_arcs.map fun t =>
          (eff t.2.1 * value_dem_USD_hm3 t.2.1 - cost_offer_USD_hm3 t.1)
            * sol (Var.x t.1 t.2.1 t.2.2)).sum
        - (dm_pairs.map fun q =>
            p.penalty_usd_hm3 * weight_dem p q.1 * sol (Var.u q.1 q.2)).sum := by
  unfold objective
  rw [evalLin_append, evalLin_terms, evalLin_terms]
  have h : (fun q : String × String =>
      -(p.penalty_usd_hm3 * weight_dem p q.1) * sol (Var.u q.1 q.2))
      = fun q : String × String =>
        -(p.penalty_usd_hm3 * weight_dem p q.1 * sol (Var.u q.1 q.2)) := by
    funext q; ring
  rw [h, sum_map_neg]
  ring

end Chavi

/-! ## Claim properties and theorems -/

namespace Chavi

/-- The property claim C1 asserts of a demand `j` and month `m`: the
balance constraint is in the built model, is an equality, says
`(Σ_i x(i,j,m)) * eff(j) + u(j,m) = Dhat(j,m)`, and forces the deficit
of any feasible solution to be exactly the unmet converted requirement. -/
def balanceProp (p : Params) (eff : String → ℚ) (j m : String) (sol : Var → ℚ) : Prop :=
  balanceConstraint eff j m ∈ buildConstraints p eff
  ∧ (balanceConstraint eff j m).rel = Rel.eq
  ∧ (satisfies sol (balanceConstraint eff j m) ↔
      sumAllocated sol j m * eff j + sol (Var.u j m) = Dhat j m)
  ∧ (feasible p eff sol → sol (Var.u j m) = Dhat j m - sumAllocated sol j m * eff j)

/-- C1: in every model built with a recognized scenario, every demand
and month has the equality balance constraint
`Σ_i x(i,j,m) * eff(j) + u(j,m) == Dhat(j,m)`, so in any feasible
solution the shortfall is exactly the unmet converted requirement. -/
theorem C1_demand_balance (p : Params) (eff : String → ℚ)
    (hs : efficiencies p.scenario = some eff) (j : String) (hj : j ∈ demands)
    (m : String) (hm : m ∈ months) (sol : Var → ℚ) :
    balanceProp p eff j m sol := by
  have hmem := mem_build_balance p eff hj hm
  have hrel : (balanceConstraint eff j m).rel = Rel.eq := rfl
  have hiff : satisfies sol (balanceConstraint eff j m) ↔
      sumAllocated sol j m * eff j + sol (Var.u j m) = Dhat j m := by
    rw [satisfies_of_eq sol _ hrel, evalLin_balance]
    have hr : (balanceConstraint eff j m).rhs = Dhat j m := rfl
    rw [hr]
    constructor <;> intro h <;> linarith
  refine ⟨hmem, hrel, hiff, ?_⟩
  intro hf
  have := hiff.mp (hf.2.2 _ hmem)
  linarith

/-- Witness for C1 at the default parameters, scenario S1, demand
`Chao`, month `Ene`, and the zero assignment. -/
theorem C1_demand_balance_witness :
    balanceProp defaultParams effS1 "Chao" "Ene" (fun _ => 0) :=
  C1_demand_balance defaultParams effS1 rfl "Chao" (by decide) "Ene" (by decide) (fun _ => 0)

/-- The property claim C3 asserts of a priority demand `j` and month
`m`: the constraint `u(j,m) == 0` is in the built model, it holds
exactly when the deficit value is zero, and any feasible solution has
zero deficit there. -/
def zeroDeficitProp (p : Params) (eff : String → ℚ) (j m : String) (sol : Var → ℚ) : Prop :=
  zeroDeficitConstraint j m ∈ buildConstraints p eff
  ∧ (zeroDeficitConstraint j m).rel = Rel.eq
  ∧ (satisfies sol (zeroDeficitConstraint j m) ↔ sol (Var.u j m) = 0)
  ∧ (feasible p eff sol → sol (Var.u j m) = 0)

/-- C3: for each of the four priority demands and every month the built
model contains the hard equality `u(j,m) == 0`, so every feasible
solution has exactly zero deficit there, whatever the penalty rate and
weights are. -/
theorem C3_priority_zero_deficit (p : Params) (eff : String → ℚ)
    (hs : efficiencies p.scenario = some eff) (j : String) (hj : j ∈ priority_demands)
    (m : String) (hm : m ∈ months) (sol : Var → ℚ) :
    zeroDeficitProp p eff j m sol := by
  have hmem := mem_build_zeroDef p eff hj hm
  have hrel : (zeroDeficitConstraint j m).rel = Rel.eq := rfl
  have hiff : satisfies sol (zeroDeficitConstraint j m) ↔ sol (Var.u j m) = 0 := by
    rw [satisfies_of_eq sol _ hrel, evalLin_zeroDef]
    exact Iff.rfl
  exact ⟨hmem, hrel, hiff, fun hf => hiff.mp (hf.2.2 _ hmem)⟩

/-- Witness for C3 at the default parameters, scenario S1, demand
`PTAP_Trujillo`, month `Dic`, and the zero assignment. -/
theorem C3_priority_zero_deficit_witness :
    zeroDeficitProp defaultParams effS1 "PTAP_Trujillo" "Dic" (fun _ => 0) :=
  C3_priority_zero_deficit defaultParams effS1 rfl "PTAP_Trujillo" (by decide)
    "Dic" (by decide) (fun _ => 0)

/-- The property claim C4 asserts of a source `i` and month `m`: the
supply constraint is in the built model, is an inequality bounding
`Σ_j x(i,j,m)` by the adjusted converted supply, and the adjustment
multiplies only `Pozos_Chao` by `mult_pozos_chao` and only `Pozos_Viru`
by `mult_pozos_viru`, leaving every other source's volume unchanged. -/
def supplyProp (p : Params) (eff : String → ℚ) (i m : String) (sol : Var → ℚ) : Prop :=
  supplyConstraint p i m ∈ buildConstraints p eff
  ∧ (supplyConstraint p i m).rel = Rel.le
  ∧ (satisfies sol (supplyConstraint p i m) ↔ sumSupplied sol i m ≤ Qhat_adjusted p i m)
  ∧ Qhat_adjusted p "Pozos_Chao" m = Qhat "Pozos_Chao" m * p.mult_pozos_chao
  ∧ Qhat_adjusted p "Pozos_Viru" m = Qhat "Pozos_Viru" m * p.mult_pozos_viru
  ∧ (i ≠ "Pozos_Chao" → i ≠ "Pozos_Viru" → Qhat_adjusted p i m = Qhat i m)
  ∧ (feasible p eff sol → sumSupplied sol i m ≤ Qhat_adjusted p i m)

/-- C4: in every model built with a recognized scenario, every source
and month has the inequality `Σ_j x(i,j,m) ≤ Qhat_adjusted(i,m)`, where
the two well multipliers scale only their respective source. -/
theorem C4_supply_bound (p : Params) (eff : String → ℚ)
    (hs : efficiencies p.scenario = some eff) (i : String) (hi : i ∈ sources)
    (m : String) (hm : m ∈ months) (sol : Var → ℚ) :
    supplyProp p eff i m sol := by
  have hmem := mem_build_supply p eff hi hm
  have hrel : (supplyConstraint p i m).rel = Rel.le := rfl
  have hiff : satisfies sol (supplyConstraint p i m) ↔
      sumSupplied sol i m ≤ Qhat_adjusted p i m := by
    rw [satisfies_of_le sol _ hrel, evalLin_supply]
    exact Iff.rfl
  refine ⟨hmem, hrel, hiff, by simp [Qhat_adjusted], by simp [Qhat_adjusted], ?_, ?_⟩
  · intro h1 h2
    simp [Qhat_adjusted, h1, h2]
  · exact fun hf => hiff.mp (hf.2.2 _ hmem)

/-- Witness for C4 at the default parameters, scenario S1, source
`Pozos_Chao`, month `Jul`, and the zero assignment. -/
theorem C4_supply_bound_witness :
    supplyProp defaultParams effS1 "Pozos_Chao" "Jul" (fun _ => 0) :=
  C4_supply_bound defaultParams effS1 rfl "Pozos_Chao" (by decide) "Jul" (by decide)
    (fun _ => 0)

/-- The property claim C5 asserts of a month `m`: the canal-capacity
constraint over Santa's arcs is in the built model with right-hand side
`cap_santa_m3s * secs(m) / 10^6`, Santa's own supply constraint is in
the model as well, every canal constraint of the model concerns Santa
(one per month), and a feasible solution satisfies both bounds at once. -/
def canalProp (p : Params) (eff : String → ℚ) (m : String) (sol : Var → ℚ) : Prop :=
  capConstraint p m ∈ buildConstraints p eff
  ∧ supplyConstraint p "Santa" m ∈ buildConstraints p eff
  ∧ (capConstraint p m).rel = Rel.le
  ∧ (capConstraint p m).rhs = p.cap_santa_m3s * secs m / 1000000
  ∧ (satisfies sol (capConstraint p m) ↔ sumSupplied sol "Santa" m ≤ CapSanta p m)
  ∧ (∀ c ∈ capConstraints p, ∃ m2 ∈ months, c = capConstraint p m2)
  ∧ (feasible p eff sol →
      sumSupplied sol "Santa" m ≤ CapSanta p m
      ∧ sumSupplied sol "Santa" m ≤ Qhat_adjusted p "Santa" m)

/-- C5: for every month the built model bounds Santa's outgoing
allocation by the converted canal capacity, this canal constraint
exists only for Santa, and it stacks with Santa's own supply
inequality: a feasible solution satisfies both. -/
theorem C5_canal_capacity (p : Params) (eff : String → ℚ)
    (hs : efficiencies p.scenario = some eff) (m : String) (hm : m ∈ months)
    (sol : Var → ℚ) : canalProp p eff m sol := by
  have hSanta : "Santa" ∈ sources := by decide
  have hmemc := mem_build_cap p eff hm
  have hmems := mem_build_supply p eff hSanta hm
  have hrel : (capConstraint p m).rel = Rel.le := rfl
  have hiffc : satisfies sol (capConstraint p m) ↔
      sumSupplied sol "Santa" m ≤ CapSanta p m := by
    rw [satisfies_of_le sol _ hrel, evalLin_cap]
    exact Iff.rfl
  have hiffs : satisfies sol (supplyConstraint p "Santa" m) ↔
      sumSupplied sol "Santa" m ≤ Qhat_adjusted p "Santa" m := by
    rw [satisfies_of_le sol _ rfl, evalLin_supply]
    exact Iff.rfl
  refine ⟨hmemc, hmems, hrel, rfl, hiffc, ?_, ?_⟩
  · intro c hc
    obtain ⟨m2, hm2, hce⟩ := List.mem_map.mp hc
    exact ⟨m2, hm2, hce.symm⟩
  · intro hf
    exact ⟨hiffc.mp (hf.2.2 _ hmemc), hiffs.mp (hf.2.2 _ hmems)⟩

/-- Witness for C5 at the default parameters, scenario S1, month `Mar`,
and the zero assignment. -/
theorem C5_canal_capacity_witness :
    canalProp defaultParams effS1 "Mar" (fun _ => 0) :=
  C5_canal_capacity defaultParams effS1 rfl "Mar" (by decide) (fun _ => 0)

end Chavi

namespace Chavi

/-- The property claim C2 asserts: the objective value at any assignment
is the benefit sum over valid arcs, with efficiency multiplying only the
value term, minus the penalty sum `penalty_rate × sector_weight × u`
over all (demand, month) pairs; and the sector weight is the
three-level table. -/
def objectiveProp (p : Params) (eff : String → ℚ) (sol : Var → ℚ) : Prop :=
  evalLin sol (objective p eff)
    = (allowed_arcs.map fun t =>
        (eff t.2.1 * value_dem_USD_hm3 t.2.1 - cost_offer_USD_hm3 t.1)
          * sol (Var.x t.1 t.2.1 t.2.2)).sum
      - (dm_pairs.map fun q =>
          p.penalty_usd_hm3 * weight_dem p q.1 * sol (Var.u q.1 q.2)).sum
  ∧ weight_dem p "PTAP_Trujillo" = p.weight_ptap
  ∧ weight_dem p "PTAP_Chao" = p.weight_ptap
  ∧ weight_dem p "Industria" = p.weight_ind_pec
  ∧ weight_dem p "Pecuario" = p.weight_ind_pec
  ∧ (∀ j : String, j ∉ priority_demands → weight_dem p j = p.weight_agro)

/-- C2: the objective is exactly
`Σ_arcs (eff(j)·value(j) − cost(i))·x(i,j,m) − Σ_(j,m) penalty·weight(j)·u(j,m)`,
with efficiency on the value term only, and the sector weight is the
three-level table combined multiplicatively with the penalty rate. -/
theorem C2_objective (p : Params) (eff : String → ℚ)
    (hs : efficiencies p.scenario = some eff) (sol : Var → ℚ) :
    objectiveProp p eff sol := by
  refine ⟨objective_eval p eff sol, by simp [weight_dem], by simp [weight_dem],
    by simp [weight_dem], by simp [weight_dem], ?_⟩
  intro j hj
  simp only [priority_demands, List.mem_cons, List.not_mem_nil, or_false, not_or] at hj
  obtain ⟨h1, h2, h3, h4⟩ := hj
  simp [weight_dem, h1, h2, h3, h4]

/-- Witness for C2 at the default parameters, scenario S1, and the
all-ones assignment. -/
theorem C2_objective_witness :
    objectiveProp defaultParams effS1 (fun _ => 1) :=
  C2_objective defaultParams effS1 rfl (fun _ => 1)

/-- C6: the valid arcs are exactly Santa to every demand, the Chao
local group to `Chao`, and the Viru local group to `Viru`, in every
month; and an allocation variable `x(i,j,m)` exists in the model
precisely for the triples of this set. -/
theorem C6_topology :
    (∀ i j m : String,
      (i, j, m) ∈ allowed_arcs ↔
        (i = "Santa" ∧ j ∈ demands ∧ m ∈ months)
        ∨ (i ∈ local_chao_sources ∧ j = "Chao" ∧ m ∈ months)
        ∨ (i ∈ local_viru_sources ∧ j = "Viru" ∧ m ∈ months))
    ∧ (∀ i j m : String, Var.x i j m ∈ modelXVars ↔ (i, j, m) ∈ allowed_arcs) := by
  constructor
  · intro i j m
    simp only [allowed_arcs, List.mem_append, List.mem_flatMap, List.mem_map,
      Prod.mk.injEq]
    constructor
    · rintro ((⟨j2, hj2, m2, hm2, hi, hj, hm⟩ | ⟨i2, hi2, m2, hm2, hi, hj, hm⟩) |
        ⟨i2, hi2, m2, hm2, hi, hj, hm⟩)
      · subst hi; subst hj; subst hm; exact Or.inl ⟨rfl, hj2, hm2⟩
      · subst hi; subst hj; subst hm; exact Or.inr (Or.inl ⟨hi2, rfl, hm2⟩)
      · subst hi; subst hj; subst hm; exact Or.inr (Or.inr ⟨hi2, rfl, hm2⟩)
    · rintro (⟨rfl, hj, hm⟩ | ⟨hi, rfl, hm⟩ | ⟨hi, rfl, hm⟩)
      · exact Or.inl (Or.inl ⟨j, hj, m, hm, rfl, rfl, rfl⟩)
      · exact Or.inl (Or.inr ⟨i, hi, m, hm, rfl, rfl, rfl⟩)
      · exact Or.inr ⟨i, hi, m, hm, rfl, rfl, rfl⟩
  · intro i j m
    simp only [modelXVars, List.mem_map]
    constructor
    · rintro ⟨⟨a, b, c⟩, ht, he⟩
      simp only [Var.x.injEq] at he
      obtain ⟨rfl, rfl, rfl⟩ := he
      exact ht
    · intro h
      exact ⟨(i, j, m), h, rfl⟩

/-- The spec formula of §4.1: monthly volume =
flow_rate × seconds_in_month / 1,000,000. -/
def monthlyVolume_spec (flow : ℚ) (m : String) : ℚ := flow * secs m / 1000000

/-- C7: the supply, demand, and canal-capacity conversions all apply the
one formula `flow × secs(m) / 10^6`, and the seconds per month come from
the non-leap-year day counts (February fixed at 28 days) times 24×3600. -/
theorem C7_unit_conversion (p : Params) (i j m : String) :
    Qhat i m = monthlyVolume_spec (offerFlow i m) m
    ∧ Dhat j m = monthlyVolume_spec (demandFlow j m) m
    ∧ CapSanta p m = monthlyVolume_spec p.cap_santa_m3s m
    ∧ days = [31, 28, 31, 30, 31, 30, 31, 31, 30, 31, 30, 31]
    ∧ months.map secs
        = [2678400, 2419200, 2678400, 2592000, 2678400, 2592000,
           2678400, 2678400, 2592000, 2678400, 2592000, 2678400]
    ∧ secs "Feb" = 28 * 24 * 3600 :=
  ⟨rfl, rfl, rfl, rfl,
    by simp [months, days, secs, List.lookup]; norm_num,
    by simp [secs, months, days, List.lookup]⟩

/-- The property claim C8 asserts: the extractor's recomputed totals
reconcile exactly with the objective expression evaluated at the same
solved values, an absent value counting as 0. -/
def reconcileProp (p : Params) (eff : String → ℚ) (sol : Var → Option ℚ) : Prop :=
  benefit_total eff (getVal sol) - cost_total (getVal sol) - penalty_total p (getVal sol)
    = evalLin (getVal sol) (objective p eff)

/-- C8: for any assignment of solved values (absent values read as 0),
`benefit_total − cost_total − penalty_total` equals the objective
expression evaluated at those values — exactly, in exact arithmetic. -/
theorem C8_totals_reconcile (p : Params) (eff : String → ℚ)
    (hs : efficiencies p.scenario = some eff) (sol : Var → Option ℚ) :
    reconcileProp p eff sol := by
  unfold reconcileProp benefit_total cost_total penalty_total
  rw [objective_eval]
  have h : (allowed_arcs.map fun t =>
      (eff t.2.1 * value_dem_USD_hm3 t.2.1 - cost_offer_USD_hm3 t.1)
        * getVal sol (Var.x t.1 t.2.1 t.2.2))
      = allowed_arcs.map fun t =>
        eff t.2.1 * value_dem_USD_hm3 t.2.1 * getVal sol (Var.x t.1 t.2.1 t.2.2)
          - cost_offer_USD_hm3 t.1 * getVal sol (Var.x t.1 t.2.1 t.2.2) := by
    apply List.map_congr_left
    intro t _
    ring
  rw [h, sum_map_sub]

/-- Witness for C8 at the default parameters, scenario S1, and the
everywhere-absent value map. -/
theorem C8_totals_reconcile_witness :
    reconcileProp defaultParams effS1 (fun _ => none) :=
  C8_totals_reconcile defaultParams effS1 rfl (fun _ => none)

end Chavi

namespace Chavi

/-- C9 (amended): with an unrecognized scenario (neither `S1` nor `S2`)
the run aborts at the efficiency lookup — no constraint is ever added,
no objective is set and no output is produced — but the abort state
already holds the created problem object and all 204 allocation plus
120 deficit decision variables. -/
theorem C9_unknown_scenario_aborts :
    (∀ p : Params, efficiencies p.scenario = none → build_model p = Except.error abortState)
    ∧ (∀ s : String, s ≠ "S1" → s ≠ "S2" → efficiencies s = none)
    ∧ abortState.probCreated = true
    ∧ abortState.xVarsCreated = modelXVars
    ∧ abortState.uVarsCreated = modelUVars
    ∧ abortState.constraintsAdded = [] := by
  refine ⟨?_, ?_, rfl, rfl, rfl, rfl⟩
  · intro p h
    unfold build_model
    rw [h]
  · intro s h1 h2
    simp [efficiencies, h1, h2]

set_option maxRecDepth 10000 in
/-- C9 counterexample to the claim as stated: calling `build_and_solve`
with the unrecognized scenario `"S3"` does abort with no output, but at
the moment of the `KeyError` the problem object is already instantiated
and all 204 allocation and 120 deficit variables are already created —
refuting "no problem object instantiated and no decision variables
created". -/
theorem C9_partial_model_exists :
    build_model { defaultParams with scenario := "S3" } = Except.error abortState
    ∧ abortState.probCreated = true
    ∧ abortState.xVarsCreated.length = 204
    ∧ abortState.uVarsCreated.length = 120 :=
  ⟨rfl, rfl, by decide, by decide⟩

/-- The property claim C10 asserts of a requested solver name and a
backend-construction failure oracle: a name outside the recognized set
(after the `or "cbc"` defaulting and lowercasing) still picks the CBC
backend, a missing name picks CBC, and whether or not construction of
the picked backend raises, the model is solved — with the constructed
backend, or with PuLP's default solver — never with an error. -/
def solverProp (name : Option String) (cf : SolverBackend → Bool) : Prop :=
  (lowerStr (name.getD "cbc") ∉ (["cbc", "pulp_cbc_cmd", "glpk", "glpk_cmd"] : List String) →
      pick_solver name = SolverBackend.cbc)
  ∧ pick_solver none = SolverBackend.cbc
  ∧ (cf (pick_solver name) = true → choose_solver name cf = SolverUsed.pulpDefault)
  ∧ (cf (pick_solver name) = false →
      choose_solver name cf = SolverUsed.backend (pick_solver name))

/-- C10: solver selection never aborts — any unrecognized solver name
(None included, case-insensitively) maps to the CBC backend, and any
backend-construction failure falls back to PuLP's default solver, so no
solver identifier or construction failure surfaces as an error. -/
theorem C10_solver_never_fails (name : Option String) (cf : SolverBackend → Bool) :
    solverProp name cf := by
  refine ⟨?_, rfl, ?_, ?_⟩
  · intro h
    simp only [List.mem_cons, List.not_mem_nil, or_false, not_or] at h
    obtain ⟨h1, h2, h3, h4⟩ := h
    unfold pick_solver
    simp [h1, h2, h3, h4]
  · intro h
    unfold choose_solver
    simp [h]
  · intro h
    unfold choose_solver
    simp [h]

end Chavi
